import Mathlib

/-!
Shallow embedding of `src/virtual_controls.c` / `src/virtual_controls.h`
(virtual on-screen button overlay: hit testing, pointer-event translation to
synthetic key events, and the renderer's resource lifecycle).

Conventions of the embedding:
* C `float` coordinates are modelled as exact rationals `ℚ` (real-arithmetic
  idealization; none of the verified properties depend on float rounding).
* The module-level globals (`buttons`, `button_count`, `window_w`, `window_h`)
  are gathered into an explicit state record `VCState`; the button array plus
  `button_count` become a `List VC_Button` (insertion order preserved,
  `button_count = buttons.length`).
* `SDL_PushEvent` of a synthesized key event is modelled by returning the list
  of pushed `KeyEvent`s in push order next to the updated state.
* The GL globals (`vc_prog`, `vc_loc_pos`, `vc_loc_col`, `vc_vbo`) become
  `GLState`; the outcomes of the GL calls made during lazy resource creation
  (compile status, the handle `glCreateProgram` returns, link status, the
  buffer `glGenBuffers` returns) are supplied by an oracle `GLOracle`.
-/

namespace VirtualControls

/-- SDL event type code `SDL_FINGERDOWN` (0x700). -/
def SDL_FINGERDOWN : Nat := 0x700

/-- SDL event type code `SDL_FINGERUP` (0x701). -/
def SDL_FINGERUP : Nat := 0x701

/-- SDL event type code `SDL_FINGERMOTION` (0x702). -/
def SDL_FINGERMOTION : Nat := 0x702

/-- SDL event type code `SDL_KEYDOWN` (0x300). -/
def SDL_KEYDOWN : Nat := 0x300

/-- SDL event type code `SDL_KEYUP` (0x301). -/
def SDL_KEYUP : Nat := 0x301

/-- SDL button/key state `SDL_PRESSED` (1). -/
def SDL_PRESSED : Nat := 1

/-- SDL button/key state `SDL_RELEASED` (0). -/
def SDL_RELEASED : Nat := 0

/-- `#define MAX_BUTTONS 16` from virtual_controls.c line 14. -/
def MAX_BUTTONS : Nat := 16

/-- SDL keycode `SDLK_RETURN` (13). -/
def SDLK_RETURN : Int := 13

/-- SDL keycode `SDLK_RIGHT`. -/
def SDLK_RIGHT : Int := 1073741903

/-- SDL keycode `SDLK_LEFT`. -/
def SDLK_LEFT : Int := 1073741904

/-- SDL keycode `SDLK_DOWN`. -/
def SDLK_DOWN : Int := 1073741905

/-- SDL keycode `SDLK_UP`. -/
def SDLK_UP : Int := 1073741906

/-- `VC_Button` from virtual_controls.h: normalized bounds, the keycode to
synthesize, the stable id, and the runtime pressed flag (a C int that only
ever holds 0 or 1, modelled as `Bool`). -/
structure VC_Button where
  x : ℚ
  y : ℚ
  w : ℚ
  h : ℚ
  key : Int
  id : Int
  pressed : Bool
deriving DecidableEq, Repr

/-- The module state of virtual_controls.c: the button array together with
`button_count` (as a list), and the stored window dimensions. -/
structure VCState where
  buttons : List VC_Button
  window_w : Int
  window_h : Int
deriving DecidableEq, Repr

/-- A synthetic SDL key event as built by `synthesize_key` (the fields the
code sets that identify the event: type, key state, and keycode `sym`). -/
structure KeyEvent where
  type : Nat
  state : Nat
  sym : Int
deriving DecidableEq, Repr

/-- `synthesize_key(key, is_down)`: builds the SDL key event pushed onto the
event queue (`SDL_KEYDOWN`/`SDL_PRESSED` when `is_down`, else
`SDL_KEYUP`/`SDL_RELEASED`). -/
def synthesize_key (key : Int) (is_down : Bool) : KeyEvent :=
  { type := if is_down then SDL_KEYDOWN else SDL_KEYUP
    state := if is_down then SDL_PRESSED else SDL_RELEASED
    sym := key }

/-- `point_in_button` (virtual_controls.c lines 71-74): containment test
`px >= x && px <= x+w && py >= y && py <= y+h` — closed on all four edges. -/
def point_in_button (b : VC_Button) (px_norm py_norm : ℚ) : Bool :=
  decide (b.x ≤ px_norm ∧ px_norm ≤ b.x + b.w ∧
          b.y ≤ py_norm ∧ py_norm ≤ b.y + b.h)

/-- `vc_add_button` (lines 45-50): fails with -1 when `button_count` has
reached `MAX_BUTTONS`; otherwise appends a released button whose id is the
previous count and returns that id. -/
def vc_add_button (s : VCState) (x y w h : ℚ) (key : Int) : Int × VCState :=
  if s.buttons.length ≥ MAX_BUTTONS then (-1, s)
  else ((s.buttons.length : Int),
        { s with buttons := s.buttons ++
            [{ x := x, y := y, w := w, h := h, key := key,
               id := (s.buttons.length : Int), pressed := false }] })

/-- `VirtualControls_Init` (lines 52-64): stores the window dimensions,
clears the button set and registers the fixed example layout. -/
def VirtualControls_Init (win_w win_h : Int) : VCState :=
  let s0 : VCState := { buttons := [], window_w := win_w, window_h := win_h }
  let s1 := (vc_add_button s0 (5/100) (75/100) (12/100) (18/100) SDLK_LEFT).2
  let s2 := (vc_add_button s1 (22/100) (75/100) (12/100) (18/100) SDLK_DOWN).2
  let s3 := (vc_add_button s2 (22/100) (55/100) (12/100) (18/100) SDLK_UP).2
  let s4 := (vc_add_button s3 (39/100) (75/100) (12/100) (18/100) SDLK_RIGHT).2
  (vc_add_button s4 (80/100) (75/100) (15/100) (18/100) SDLK_RETURN).2

/-- `VirtualControls_OnWindowResized` (lines 66-69): stores the new
dimensions. It pushes no events, so the pushed-event list is `[]`. -/
def VirtualControls_OnWindowResized (s : VCState) (new_w new_h : Int) :
    VCState × List KeyEvent :=
  ({ s with window_w := new_w, window_h := new_h }, [])

/-- The `SDL_FINGERDOWN` loop (lines 106-111): each released button
containing the point becomes pressed and a key-down is pushed, in index
order. -/
def vcDownLoop (nx ny : ℚ) : List VC_Button → List VC_Button × List KeyEvent
  | [] => ([], [])
  | b :: rest =>
    let r := vcDownLoop nx ny rest
    if !b.pressed && point_in_button b nx ny then
      ({ b with pressed := true } :: r.1, synthesize_key b.key true :: r.2)
    else (b :: r.1, r.2)

/-- The `SDL_FINGERUP` loop (lines 117-122): each pressed button containing
the point becomes released and a key-up is pushed, in index order. -/
def vcUpLoop (nx ny : ℚ) : List VC_Button → List VC_Button × List KeyEvent
  | [] => ([], [])
  | b :: rest =>
    let r := vcUpLoop nx ny rest
    if b.pressed && point_in_button b nx ny then
      ({ b with pressed := false } :: r.1, synthesize_key b.key false :: r.2)
    else (b :: r.1, r.2)

/-- The `SDL_FINGERMOTION` loop (lines 127-132): each pressed button no
longer containing the point becomes released and a key-up is pushed. -/
def vcMotionLoop (nx ny : ℚ) : List VC_Button → List VC_Button × List KeyEvent
  | [] => ([], [])
  | b :: rest =>
    let r := vcMotionLoop nx ny rest
    if b.pressed && !point_in_button b nx ny then
      ({ b with pressed := false } :: r.1, synthesize_key b.key false :: r.2)
    else (b :: r.1, r.2)

/-- The mouse-release loop (lines 153-159): every pressed button is released
unconditionally (position ignored) and a key-up is pushed per such button. -/
def vcReleaseAllLoop : List VC_Button → List VC_Button × List KeyEvent
  | [] => ([], [])
  | b :: rest =>
    let r := vcReleaseAllLoop rest
    if b.pressed then
      ({ b with pressed := false } :: r.1, synthesize_key b.key false :: r.2)
    else (b :: r.1, r.2)

/-- The inner `SDL_TouchFingerEvent` data used by the handler: the event
type code and the normalized position `tf->x`, `tf->y`. -/
structure SDL_TouchFingerEvent where
  type : Nat
  x : ℚ
  y : ℚ
deriving DecidableEq, Repr

/-- The `SDL_MouseButtonEvent` data used by the handler: the button state
(`SDL_PRESSED`/`SDL_RELEASED`) and the pixel position. -/
structure SDL_MouseButtonEvent where
  state : Nat
  x : Int
  y : Int
deriving DecidableEq, Repr

/-- `VirtualControls_HandleFingerEvent` (lines 91-138): dispatches on
`tf->type`; unknown types fall through the `default` case doing nothing.
The NULL-pointer guard of the C code is outside the model (the argument is
always a present event). -/
def VirtualControls_HandleFingerEvent (s : VCState)
    (tf : SDL_TouchFingerEvent) : VCState × List KeyEvent :=
  let nx := tf.x
  let ny := tf.y
  if tf.type = SDL_FINGERDOWN then
    let r := vcDownLoop nx ny s.buttons
    ({ s with buttons := r.1 }, r.2)
  else if tf.type = SDL_FINGERUP then
    let r := vcUpLoop nx ny s.buttons
    ({ s with buttons := r.1 }, r.2)
  else if tf.type = SDL_FINGERMOTION then
    let r := vcMotionLoop nx ny s.buttons
    ({ s with buttons := r.1 }, r.2)
  else (s, [])

/-- `VirtualControls_HandleMouseEvent` (lines 141-161): normalizes the pixel
position by the stored window dimensions, presses on `SDL_PRESSED` like the
finger-down path, and on `SDL_RELEASED` releases every pressed button
unconditionally. (C float division is modelled by total `ℚ` division;
`window_w`/`window_h` are nonzero in every state the host creates.) -/
def VirtualControls_HandleMouseEvent (s : VCState)
    (mb : SDL_MouseButtonEvent) : VCState × List KeyEvent :=
  let nx : ℚ := (mb.x : ℚ) / (s.window_w : ℚ)
  let ny : ℚ := (mb.y : ℚ) / (s.window_h : ℚ)
  if mb.state = SDL_PRESSED then
    let r := vcDownLoop nx ny s.buttons
    ({ s with buttons := r.1 }, r.2)
  else if mb.state = SDL_RELEASED then
    let r := vcReleaseAllLoop s.buttons
    ({ s with buttons := r.1 }, r.2)
  else (s, [])

/-! ## Renderer resource lifecycle (the GL globals and the lazy-create path)

Only the resource-management part of the renderer is embedded: the geometry
building and the GL draw calls of `VirtualControls_Draw` have no observable
effect on the module state and none of the verified properties concern them.
The outcomes of the GL calls made during `vc_create_shader` are supplied by
an oracle. -/

/-- Outcomes of the GL calls performed by one run of `vc_create_shader`:
the two `GL_COMPILE_STATUS` queries, the handle returned by
`glCreateProgram`, the `GL_LINK_STATUS` query, and the buffer name produced
by `glGenBuffers`. -/
structure GLOracle where
  vsCompileOk : Bool
  fsCompileOk : Bool
  createProgramRet : Nat
  linkOk : Bool
  genBuffersRet : Nat
deriving DecidableEq, Repr

/-- The GL globals of virtual_controls.c (lines 34-37): `vc_prog`,
`vc_loc_pos`, `vc_loc_col`, `vc_vbo`. -/
structure GLState where
  vc_prog : Nat
  vc_loc_pos : Int
  vc_loc_col : Int
  vc_vbo : Nat
deriving DecidableEq, Repr

/-- Initial values of the GL globals (lines 34-37):
`vc_prog = 0`, `vc_loc_pos = -1`, `vc_loc_col = -1`, `vc_vbo = 0`. -/
def glInit : GLState :=
  { vc_prog := 0, vc_loc_pos := -1, vc_loc_col := -1, vc_vbo := 0 }

/-- `vc_create_shader` (lines 176-213): compiles both shaders, logging a
diagnostic on each compile failure; then unconditionally sets `vc_prog` to
the handle `glCreateProgram` returned, links it, logging on link failure;
sets the attribute locations to 0 and 1 and generates the vertex buffer.
Note `vc_prog` is NOT reset to 0 on any failure. The returned string list
holds the `SDL_Log` messages in emission order. -/
def vc_create_shader (gl : GLOracle) : GLState × List String :=
  let logs :=
    (if !gl.vsCompileOk then ["VC vertex shader error"] else []) ++
    (if !gl.fsCompileOk then ["VC fragment shader error"] else []) ++
    (if !gl.linkOk then ["VC link error"] else [])
  ({ vc_prog := gl.createProgramRet, vc_loc_pos := 0, vc_loc_col := 1,
     vc_vbo := gl.genBuffersRet }, logs)

/-- The resource path of `VirtualControls_Draw` (lines 215-217): return
immediately when no buttons are registered, otherwise run the lazy create
exactly when `vc_prog` is zero. The returned strings are the log messages
emitted by the call. -/
def VirtualControls_Draw (gl : GLOracle) (button_count : Nat)
    (g : GLState) : GLState × List String :=
  if button_count = 0 then (g, [])
  else if g.vc_prog = 0 then vc_create_shader gl
  else (g, [])

/-- `VirtualControls_Shutdown` (lines 333-344): deletes the buffer when
`vc_vbo` is nonzero, zeroing it, then deletes the program when `vc_prog` is
nonzero, zeroing it. -/
def VirtualControls_Shutdown (g : GLState) : GLState :=
  let g1 := if g.vc_vbo ≠ 0 then { g with vc_vbo := 0 } else g
  if g1.vc_prog ≠ 0 then { g1 with vc_prog := 0 } else g1

/-! ## Loop characterizations

Each event-handling loop of the C code touches `buttons[i]` independently of
the other iterations and pushes its events in index order; the recursive
loop embeddings are therefore a `map` on the button list paired with a
`filterMap` producing the pushed events. -/

/-- Per-button state update of the finger-down loop. -/
def downStep (nx ny : ℚ) (b : VC_Button) : VC_Button :=
  if !b.pressed && point_in_button b nx ny then { b with pressed := true } else b

/-- Per-button pushed event of the finger-down loop. -/
def downEvt (nx ny : ℚ) (b : VC_Button) : Option KeyEvent :=
  if !b.pressed && point_in_button b nx ny then some (synthesize_key b.key true)
  else none

/-- Per-button state update of the finger-up loop. -/
def upStep (nx ny : ℚ) (b : VC_Button) : VC_Button :=
  if b.pressed && point_in_button b nx ny then { b with pressed := false } else b

/-- Per-button pushed event of the finger-up loop. -/
def upEvt (nx ny : ℚ) (b : VC_Button) : Option KeyEvent :=
  if b.pressed && point_in_button b nx ny then some (synthesize_key b.key false)
  else none

/-- Per-button state update of the finger-motion loop. -/
def motionStep (nx ny : ℚ) (b : VC_Button) : VC_Button :=
  if b.pressed && !point_in_button b nx ny then { b with pressed := false } else b

/-- Per-button pushed event of the finger-motion loop. -/
def motionEvt (nx ny : ℚ) (b : VC_Button) : Option KeyEvent :=
  if b.pressed && !point_in_button b nx ny then some (synthesize_key b.key false)
  else none

/-- Per-button state update of the mouse-release loop. -/
def relStep (b : VC_Button) : VC_Button :=
  if b.pressed then { b with pressed := false } else b

/-- Per-button pushed event of the mouse-release loop. -/
def relEvt (b : VC_Button) : Option KeyEvent :=
  if b.pressed then some (synthesize_key b.key false) else none

theorem vcDownLoop_eq (nx ny : ℚ) (bs : List VC_Button) :
    vcDownLoop nx ny bs = (bs.map (downStep nx ny), bs.filterMap (downEvt nx ny)) := by
  induction bs with
  | nil => rfl
  | cons b rest ih =>
    by_cases h : (!b.pressed && point_in_button b nx ny) = true
    · simp [vcDownLoop, ih, downStep, downEvt, h]
    · simp [vcDownLoop, ih, downStep, downEvt, h]

theorem vcUpLoop_eq (nx ny : ℚ) (bs : List VC_Button) :
    vcUpLoop nx ny bs = (bs.map (upStep nx ny), bs.filterMap (upEvt nx ny)) := by
  induction bs with
  | nil => rfl
  | cons b rest ih =>
    by_cases h : (b.pressed && point_in_button b nx ny) = true
    · simp [vcUpLoop, ih, upStep, upEvt, h]
    · simp [vcUpLoop, ih, upStep, upEvt, h]

theorem vcMotionLoop_eq (nx ny : ℚ) (bs : List VC_Button) :
    vcMotionLoop nx ny bs = (bs.map (motionStep nx ny), bs.filterMap (motionEvt nx ny)) := by
  induction bs with
  | nil => rfl
  | cons b rest ih =>
    by_cases h : (b.pressed && !point_in_button b nx ny) = true
    · simp [vcMotionLoop, ih, motionStep, motionEvt, h]
    · simp [vcMotionLoop, ih, motionStep, motionEvt, h]

theorem vcReleaseAllLoop_eq (bs : List VC_Button) :
    vcReleaseAllLoop bs = (bs.map relStep, bs.filterMap relEvt) := by
  induction bs with
  | nil => rfl
  | cons b rest ih =>
    by_cases h : b.pressed = true
    · simp [vcReleaseAllLoop, ih, relStep, relEvt, h]
    · simp [vcReleaseAllLoop, ih, relStep, relEvt, h]

/-! ## Claim C1: containment geometry -/

/-- Containment predicate as the spec words it (for comparison with
`point_in_button`): the per-axis half-open rectangle
`[x, x+w) × [y, y+h)`. -/
def inHalfOpenRect (b : VC_Button) (nx ny : ℚ) : Prop :=
  b.x ≤ nx ∧ nx < b.x + b.w ∧ b.y ≤ ny ∧ ny < b.y + b.h

instance instDecInHalfOpenRect (b : VC_Button) (nx ny : ℚ) :
    Decidable (inHalfOpenRect b nx ny) :=
  inferInstanceAs (Decidable (_ ∧ _ ∧ _ ∧ _))

/-- C1 counterexample: for the button with bounds (0, 0, 1/2, 1/2), the
point (1/2, 0) lies exactly on the right edge (`nx = x + w`);
`point_in_button` returns `true` there, while the claimed half-open
rectangle excludes it, so the claimed equivalence fails. -/
theorem c1_counterexample :
    ¬ (point_in_button ⟨0, 0, 1/2, 1/2, 0, 0, false⟩ (1/2) 0 = true ↔
        inHalfOpenRect ⟨0, 0, 1/2, 1/2, 0, 0, false⟩ (1/2) 0) := by
  intro h
  have hhalf := h.mp (by simp only [point_in_button, decide_eq_true_eq]; norm_num)
  rw [inHalfOpenRect] at hhalf
  norm_num at hhalf

/-- C1 (amended): the containment test `point_in_button` returns true iff
the point lies in the CLOSED per-axis rectangle `[x, x+w] × [y, y+h]`; a
point exactly on the right or bottom edge IS contained. -/
theorem c1_point_in_button_closed (b : VC_Button) (nx ny : ℚ) :
    point_in_button b nx ny = true ↔
      (b.x ≤ nx ∧ nx ≤ b.x + b.w ∧ b.y ≤ ny ∧ ny ≤ b.y + b.h) := by
  simp [point_in_button]

/-! ## Claim C3: registration capacity -/

/-- C3: when the button count has reached `MAX_BUTTONS` (16), registration
returns the failure value -1 and leaves the state (hence the count)
unchanged; with fewer than 16 buttons it returns the previous count as the
new id and appends exactly that button (released, with that id). -/
theorem c3_capacity (s : VCState) (x y w h : ℚ) (key : Int) :
    (s.buttons.length = MAX_BUTTONS →
      vc_add_button s x y w h key = (-1, s)) ∧
    (s.buttons.length < MAX_BUTTONS →
      vc_add_button s x y w h key =
        ((s.buttons.length : Int),
         { s with buttons := s.buttons ++
             [{ x := x, y := y, w := w, h := h, key := key,
                id := (s.buttons.length : Int), pressed := false }] })) := by
  constructor
  · intro hl
    rw [vc_add_button, if_pos (le_of_eq hl.symm)]
  · intro hl
    rw [vc_add_button, if_neg (by omega)]

/-- A sample button used by concrete witnesses. -/
def bFull : VC_Button :=
  { x := 0, y := 0, w := 1, h := 1, key := 97, id := 0, pressed := false }

/-- A full 16-button state and an empty state, at which `c3_capacity` is
instantiated. -/
theorem c3_capacity_witness :
    vc_add_button ⟨List.replicate 16 bFull, 800, 600⟩ 0 0 1 1 97 =
      (-1, ⟨List.replicate 16 bFull, 800, 600⟩) ∧
    vc_add_button ⟨[], 800, 600⟩ 0 0 1 1 97 =
      (0, ⟨[{ x := 0, y := 0, w := 1, h := 1, key := 97, id := 0,
              pressed := false }], 800, 600⟩) := by
  refine ⟨(c3_capacity ⟨List.replicate 16 bFull, 800, 600⟩ 0 0 1 1 97).1 (by simp [MAX_BUTTONS]), ?_⟩
  have h := (c3_capacity ⟨[], 800, 600⟩ 0 0 1 1 97).2 (by simp [MAX_BUTTONS])
  simpa using h

/-! ## Claim C9: resize touches only the stored dimensions -/

/-- C9: the resize notification stores the new window dimensions and changes
nothing else: the button list (hence every button's bounds, key, id and
pressed flag, and the count) is unchanged and no key event is pushed. -/
theorem c9_resize_only_dimensions (s : VCState) (nw nh : Int) :
    (VirtualControls_OnWindowResized s nw nh).1.buttons = s.buttons ∧
    (VirtualControls_OnWindowResized s nw nh).1.window_w = nw ∧
    (VirtualControls_OnWindowResized s nw nh).1.window_h = nh ∧
    (VirtualControls_OnWindowResized s nw nh).2 = [] :=
  ⟨rfl, rfl, rfl, rfl⟩

/-! ## Claim C4: mouse release clears every pressed button -/

/-- C4: handling a mouse event with state `SDL_RELEASED` releases every
currently pressed button regardless of the release position (`relStep`
flips exactly the pressed ones) and pushes exactly one key-up per
previously-pressed button, in index order (`relEvt` yields an event exactly
for the pressed ones); already-released buttons are untouched and produce
no event. -/
theorem c4_mouse_up_releases_all (s : VCState) (mb : SDL_MouseButtonEvent)
    (h : mb.state = SDL_RELEASED) :
    (VirtualControls_HandleMouseEvent s mb).1.buttons = s.buttons.map relStep ∧
    (VirtualControls_HandleMouseEvent s mb).2 = s.buttons.filterMap relEvt := by
  rw [VirtualControls_HandleMouseEvent]
  simp only [h, SDL_RELEASED, SDL_PRESSED]
  simp [vcReleaseAllLoop_eq]

/-- A two-button state (one pressed, one released) at which
`c4_mouse_up_releases_all` is instantiated. -/
def sMouse : VCState :=
  { buttons :=
      [{ x := 0, y := 0, w := 1/2, h := 1/2, key := 97, id := 0, pressed := true },
       { x := 1/2, y := 1/2, w := 1/4, h := 1/4, key := 98, id := 1, pressed := false }]
    window_w := 800, window_h := 600 }

/-- Witness for C4 at the concrete state `sMouse` and a release at pixel
(700, 30), far from the pressed button. -/
theorem c4_mouse_up_witness :
    (VirtualControls_HandleMouseEvent sMouse ⟨SDL_RELEASED, 700, 30⟩).1.buttons =
      sMouse.buttons.map relStep ∧
    (VirtualControls_HandleMouseEvent sMouse ⟨SDL_RELEASED, 700, 30⟩).2 =
      sMouse.buttons.filterMap relEvt :=
  c4_mouse_up_releases_all sMouse ⟨SDL_RELEASED, 700, 30⟩ rfl

/-! ## Claim C8: shutdown idempotence and recreation on the next draw -/

theorem shutdown_vc_prog (g : GLState) :
    (VirtualControls_Shutdown g).vc_prog = 0 := by
  by_cases h1 : g.vc_vbo = 0 <;> by_cases h2 : g.vc_prog = 0 <;>
    simp [VirtualControls_Shutdown, h1, h2]

theorem shutdown_vc_vbo (g : GLState) :
    (VirtualControls_Shutdown g).vc_vbo = 0 := by
  by_cases h1 : g.vc_vbo = 0 <;> by_cases h2 : g.vc_prog = 0 <;>
    simp [VirtualControls_Shutdown, h1, h2]

theorem shutdown_of_zero (g : GLState) (h1 : g.vc_vbo = 0)
    (h2 : g.vc_prog = 0) : VirtualControls_Shutdown g = g := by
  simp [VirtualControls_Shutdown, h1, h2]

/-- C8: `VirtualControls_Shutdown` is idempotent (a second call finds both
handles already zero and changes nothing), and after a shutdown any
`VirtualControls_Draw` with a nonempty button set runs the lazy-create path
again (because `vc_prog` was reset to zero). -/
theorem c8_shutdown_idempotent_then_recreate :
    (∀ g : GLState,
      VirtualControls_Shutdown (VirtualControls_Shutdown g) =
        VirtualControls_Shutdown g) ∧
    (∀ (gl : GLOracle) (button_count : Nat) (g : GLState),
      button_count ≠ 0 →
      VirtualControls_Draw gl button_count (VirtualControls_Shutdown g) =
        vc_create_shader gl) := by
  constructor
  · intro g
    exact shutdown_of_zero _ (shutdown_vc_vbo g) (shutdown_vc_prog g)
  · intro gl button_count g hc
    rw [VirtualControls_Draw, if_neg hc, if_pos (shutdown_vc_prog g)]

/-- A GL state with live handles, at which
`c8_shutdown_idempotent_then_recreate` is instantiated. -/
def gLive : GLState :=
  { vc_prog := 3, vc_loc_pos := 0, vc_loc_col := 1, vc_vbo := 7 }

/-- A fully succeeding GL oracle used by concrete witnesses. -/
def glOk : GLOracle :=
  { vsCompileOk := true, fsCompileOk := true, createProgramRet := 4,
    linkOk := true, genBuffersRet := 5 }

/-- Witness for C8 at the concrete live state `gLive` with 5 buttons. -/
theorem c8_shutdown_witness :
    VirtualControls_Shutdown (VirtualControls_Shutdown gLive) =
      VirtualControls_Shutdown gLive ∧
    VirtualControls_Draw glOk 5 (VirtualControls_Shutdown gLive) =
      vc_create_shader glOk :=
  ⟨c8_shutdown_idempotent_then_recreate.1 gLive,
   c8_shutdown_idempotent_then_recreate.2 glOk 5 gLive (by decide)⟩

/-! ## Claim C2: behavior of the lazy create on compile/link failure -/

/-- C2 counterexample: with an oracle on which the vertex-shader compile
fails but `glCreateProgram` returns the (nonzero) handle 1, the first draw
logs the failure, yet leaves `vc_prog = 1` — not the zero-valued program
handle the claim states — and the second draw does NOT re-attempt the lazy
creation: it is a pure no-op (state unchanged, nothing logged), contradicting
"every subsequent draw() call re-attempts the lazy creation". -/
theorem c2_counterexample :
    (VirtualControls_Draw ⟨false, true, 1, true, 2⟩ 5 glInit).2 ≠ [] ∧
    (VirtualControls_Draw ⟨false, true, 1, true, 2⟩ 5 glInit).1.vc_prog ≠ 0 ∧
    VirtualControls_Draw ⟨false, true, 1, true, 2⟩ 5
        (VirtualControls_Draw ⟨false, true, 1, true, 2⟩ 5 glInit).1 =
      ((VirtualControls_Draw ⟨false, true, 1, true, 2⟩ 5 glInit).1, []) := by
  refine ⟨?_, ?_, ?_⟩ <;> simp [VirtualControls_Draw, vc_create_shader, glInit]

/-- C2 (amended): when the lazy create runs (nonzero button count, zero
`vc_prog`), a compile/link failure is logged (the log list is nonempty iff
some stage failed) and drawing proceeds without crashing, but `vc_prog`
becomes whatever handle `glCreateProgram` returned — in general nonzero —
and a subsequent draw re-attempts the lazy creation only if that returned
handle was zero; otherwise it is a no-op reusing the broken program. -/
theorem c2_lazy_create_failure (gl gl2 : GLOracle) (count count2 : Nat)
    (g : GLState) (hc : count ≠ 0) (hp : g.vc_prog = 0) (hc2 : count2 ≠ 0) :
    VirtualControls_Draw gl count g = vc_create_shader gl ∧
    (VirtualControls_Draw gl count g).1.vc_prog = gl.createProgramRet ∧
    ((VirtualControls_Draw gl count g).2 ≠ [] ↔
      ¬(gl.vsCompileOk = true ∧ gl.fsCompileOk = true ∧ gl.linkOk = true)) ∧
    VirtualControls_Draw gl2 count2 (VirtualControls_Draw gl count g).1 =
      (if gl.createProgramRet = 0 then vc_create_shader gl2
       else ((VirtualControls_Draw gl count g).1, [])) := by
  have hdraw : VirtualControls_Draw gl count g = vc_create_shader gl := by
    rw [VirtualControls_Draw, if_neg hc, if_pos hp]
  refine ⟨hdraw, by rw [hdraw]; rfl, ?_, ?_⟩
  · rw [hdraw]
    by_cases h1 : gl.vsCompileOk <;> by_cases h2 : gl.fsCompileOk <;>
      by_cases h3 : gl.linkOk <;> simp [vc_create_shader, h1, h2, h3]
  · by_cases hr : gl.createProgramRet = 0
    · rw [if_pos hr, VirtualControls_Draw, if_neg hc2,
        if_pos (by rw [hdraw]; exact hr)]
    · rw [if_neg hr, VirtualControls_Draw, if_neg hc2,
        if_neg (by rw [hdraw]; exact hr)]

/-- Witness for the amended C2 at a concrete failing oracle (vertex-shader
compile fails, `glCreateProgram` returns 1): instantiates
`c2_lazy_create_failure` with 5 buttons starting from the initial GL
state. -/
theorem c2_lazy_create_witness :
    VirtualControls_Draw ⟨false, true, 1, true, 2⟩ 5 glInit =
      vc_create_shader ⟨false, true, 1, true, 2⟩ ∧
    (VirtualControls_Draw ⟨false, true, 1, true, 2⟩ 5 glInit).1.vc_prog = 1 ∧
    ((VirtualControls_Draw ⟨false, true, 1, true, 2⟩ 5 glInit).2 ≠ [] ↔
      ¬(false = true ∧ true = true ∧ true = true)) ∧
    VirtualControls_Draw glOk 5
        (VirtualControls_Draw ⟨false, true, 1, true, 2⟩ 5 glInit).1 =
      (if (1 : Nat) = 0 then vc_create_shader glOk
       else ((VirtualControls_Draw ⟨false, true, 1, true, 2⟩ 5 glInit).1, [])) :=
  c2_lazy_create_failure ⟨false, true, 1, true, 2⟩ glOk 5 5 glInit
    (by decide) rfl (by decide)

/-! ## Helper lemmas about the per-button step and event functions -/

theorem handleFingerEvent_down (s : VCState) (nx ny : ℚ) :
    VirtualControls_HandleFingerEvent s ⟨SDL_FINGERDOWN, nx, ny⟩ =
      ({ s with buttons := s.buttons.map (downStep nx ny) },
       s.buttons.filterMap (downEvt nx ny)) := by
  rw [VirtualControls_HandleFingerEvent]
  simp [vcDownLoop_eq]

theorem handleFingerEvent_up (s : VCState) (nx ny : ℚ) :
    VirtualControls_HandleFingerEvent s ⟨SDL_FINGERUP, nx, ny⟩ =
      ({ s with buttons := s.buttons.map (upStep nx ny) },
       s.buttons.filterMap (upEvt nx ny)) := by
  rw [VirtualControls_HandleFingerEvent]
  simp [SDL_FINGERUP, SDL_FINGERDOWN, vcUpLoop_eq]

theorem handleFingerEvent_motion (s : VCState) (nx ny : ℚ) :
    VirtualControls_HandleFingerEvent s ⟨SDL_FINGERMOTION, nx, ny⟩ =
      ({ s with buttons := s.buttons.map (motionStep nx ny) },
       s.buttons.filterMap (motionEvt nx ny)) := by
  rw [VirtualControls_HandleFingerEvent]
  simp [SDL_FINGERMOTION, SDL_FINGERDOWN, SDL_FINGERUP, vcMotionLoop_eq]

theorem point_in_button_pressed_update (b : VC_Button) (p : Bool) (nx ny : ℚ) :
    point_in_button { b with pressed := p } nx ny = point_in_button b nx ny :=
  rfl

theorem pressed_update_eq_self (b : VC_Button) (h : b.pressed = false) :
    { b with pressed := false } = b := by
  cases b
  simp_all

theorem list_map_id_of (f : VC_Button → VC_Button) :
    ∀ l : List VC_Button, (∀ c ∈ l, f c = c) → l.map f = l
  | [], _ => rfl
  | c :: rest, h => by
    rw [List.map_cons, h c (List.mem_cons_self c rest),
      list_map_id_of f rest (fun d hd => h d (List.mem_cons_of_mem c hd))]

theorem list_filterMap_none_of (f : VC_Button → Option KeyEvent)
    (l : List VC_Button) (h : ∀ c ∈ l, f c = none) : l.filterMap f = [] :=
  List.filterMap_eq_nil_iff.mpr h

theorem downStep_of_out (nx ny : ℚ) (b : VC_Button)
    (h : point_in_button b nx ny = false) : downStep nx ny b = b := by
  simp [downStep, h]

theorem downEvt_of_out (nx ny : ℚ) (b : VC_Button)
    (h : point_in_button b nx ny = false) : downEvt nx ny b = none := by
  simp [downEvt, h]

theorem downStep_of_pressed (nx ny : ℚ) (b : VC_Button)
    (h : b.pressed = true) : downStep nx ny b = b := by
  simp [downStep, h]

theorem downEvt_of_pressed (nx ny : ℚ) (b : VC_Button)
    (h : b.pressed = true) : downEvt nx ny b = none := by
  simp [downEvt, h]

theorem downStep_of_guard (nx ny : ℚ) (b : VC_Button)
    (h : point_in_button b nx ny = true → b.pressed = true) :
    downStep nx ny b = b := by
  cases hc : point_in_button b nx ny
  · exact downStep_of_out nx ny b hc
  · exact downStep_of_pressed nx ny b (h hc)

theorem downEvt_of_guard (nx ny : ℚ) (b : VC_Button)
    (h : point_in_button b nx ny = true → b.pressed = true) :
    downEvt nx ny b = none := by
  cases hc : point_in_button b nx ny
  · exact downEvt_of_out nx ny b hc
  · exact downEvt_of_pressed nx ny b (h hc)

theorem downStep_of_released_in (nx ny : ℚ) (b : VC_Button)
    (hp : b.pressed = false) (hc : point_in_button b nx ny = true) :
    downStep nx ny b = { b with pressed := true } := by
  simp [downStep, hp, hc]

theorem downEvt_of_released_in (nx ny : ℚ) (b : VC_Button)
    (hp : b.pressed = false) (hc : point_in_button b nx ny = true) :
    downEvt nx ny b = some (synthesize_key b.key true) := by
  simp [downEvt, hp, hc]

theorem upStep_of_out (nx ny : ℚ) (b : VC_Button)
    (h : point_in_button b nx ny = false) : upStep nx ny b = b := by
  simp [upStep, h]

theorem upEvt_of_out (nx ny : ℚ) (b : VC_Button)
    (h : point_in_button b nx ny = false) : upEvt nx ny b = none := by
  simp [upEvt, h]

theorem upStep_of_pressed_in (nx ny : ℚ) (b : VC_Button)
    (hp : b.pressed = true) (hc : point_in_button b nx ny = true) :
    upStep nx ny b = { b with pressed := false } := by
  simp [upStep, hp, hc]

theorem upEvt_of_pressed_in (nx ny : ℚ) (b : VC_Button)
    (hp : b.pressed = true) (hc : point_in_button b nx ny = true) :
    upEvt nx ny b = some (synthesize_key b.key false) := by
  simp [upEvt, hp, hc]

/-! ## Claim C7: pointer motion -/

/-- C7: handling a finger event of type `SDL_FINGERMOTION` applies
`motionStep` to every button — a pressed button whose rectangle no longer
contains the position becomes released, every other button (pressed and
still inside, or released) is untouched, so motion never presses a released
button — and pushes exactly the events `motionEvt` yields: one key-up per
pressed button dragged off, in index order, and nothing for any other
button. -/
theorem c7_motion_releases_dragged_off (s : VCState)
    (tf : SDL_TouchFingerEvent) (h : tf.type = SDL_FINGERMOTION) :
    (VirtualControls_HandleFingerEvent s tf).1.buttons =
      s.buttons.map (motionStep tf.x tf.y) ∧
    (VirtualControls_HandleFingerEvent s tf).2 =
      s.buttons.filterMap (motionEvt tf.x tf.y) := by
  obtain ⟨t, nx, ny⟩ := tf
  subst h
  rw [handleFingerEvent_motion]
  exact ⟨rfl, rfl⟩

/-- A one-button state whose single button (over `[0,1/2]×[0,1/2]`) is
pressed, at which `c7_motion_releases_dragged_off` is instantiated with a
motion to (3/4, 3/4), outside the button. -/
def sMotion : VCState :=
  { buttons := [{ x := 0, y := 0, w := 1/2, h := 1/2, key := 97, id := 0,
                  pressed := true }]
    window_w := 800, window_h := 600 }

/-- Witness for C7 at the concrete state `sMotion`. -/
theorem c7_motion_witness :
    (VirtualControls_HandleFingerEvent sMotion
        ⟨SDL_FINGERMOTION, 3/4, 3/4⟩).1.buttons =
      sMotion.buttons.map (motionStep (3/4) (3/4)) ∧
    (VirtualControls_HandleFingerEvent sMotion
        ⟨SDL_FINGERMOTION, 3/4, 3/4⟩).2 =
      sMotion.buttons.filterMap (motionEvt (3/4) (3/4)) :=
  c7_motion_releases_dragged_off sMotion ⟨SDL_FINGERMOTION, 3/4, 3/4⟩ rfl

/-! ## Claim C6: pressing is idempotent while held -/

/-- C6: with the button set split as `pre ++ b :: post` where `b` is
released and contains the position, and every other button containing the
position is already pressed (so `b` is the only released button under the
point), a finger-down pushes exactly one key-down — for `b`'s bound key —
and flips only `b` to pressed; a second finger-down at the same position
pushes nothing and leaves the whole state unchanged. -/
theorem c6_down_idempotent (s : VCState) (nx ny : ℚ)
    (pre post : List VC_Button) (b : VC_Button)
    (hsplit : s.buttons = pre ++ b :: post)
    (hb : point_in_button b nx ny = true)
    (hbp : b.pressed = false)
    (hpre : ∀ c ∈ pre, point_in_button c nx ny = true → c.pressed = true)
    (hpost : ∀ c ∈ post, point_in_button c nx ny = true → c.pressed = true) :
    (VirtualControls_HandleFingerEvent s ⟨SDL_FINGERDOWN, nx, ny⟩).2 =
      [synthesize_key b.key true] ∧
    (VirtualControls_HandleFingerEvent s ⟨SDL_FINGERDOWN, nx, ny⟩).1.buttons =
      pre ++ { b with pressed := true } :: post ∧
    VirtualControls_HandleFingerEvent
        (VirtualControls_HandleFingerEvent s ⟨SDL_FINGERDOWN, nx, ny⟩).1
        ⟨SDL_FINGERDOWN, nx, ny⟩ =
      ((VirtualControls_HandleFingerEvent s ⟨SDL_FINGERDOWN, nx, ny⟩).1, []) := by
  have hmap : s.buttons.map (downStep nx ny) =
      pre ++ { b with pressed := true } :: post := by
    rw [hsplit, List.map_append, List.map_cons,
      downStep_of_released_in nx ny b hbp hb,
      list_map_id_of _ pre (fun c hc => downStep_of_guard nx ny c (hpre c hc)),
      list_map_id_of _ post (fun c hc => downStep_of_guard nx ny c (hpost c hc))]
  have hevs : s.buttons.filterMap (downEvt nx ny) =
      [synthesize_key b.key true] := by
    rw [hsplit, List.filterMap_append,
      list_filterMap_none_of _ pre (fun c hc => downEvt_of_guard nx ny c (hpre c hc)),
      List.filterMap_cons, downEvt_of_released_in nx ny b hbp hb,
      list_filterMap_none_of _ post (fun c hc => downEvt_of_guard nx ny c (hpost c hc))]
    rfl
  have h1 := handleFingerEvent_down s nx ny
  refine ⟨by rw [h1, hevs], by rw [h1, hmap], ?_⟩
  rw [h1]
  have hall : ∀ c ∈ { s with
      buttons := s.buttons.map (downStep nx ny) }.buttons, c.pressed = true →
      True := fun _ _ _ => trivial
  rw [handleFingerEvent_down]
  have hguard : ∀ c ∈ pre ++ { b with pressed := true } :: post,
      point_in_button c nx ny = true → c.pressed = true := by
    intro c hc hin
    rcases List.mem_append.mp hc with hcl | hcr
    · exact hpre c hcl hin
    · rcases List.mem_cons.mp hcr with rfl | hcr'
      · rfl
      · exact hpost c hcr' hin
  have hmap2 : (pre ++ { b with pressed := true } :: post).map (downStep nx ny) =
      pre ++ { b with pressed := true } :: post :=
    list_map_id_of _ _ (fun c hc => downStep_of_guard nx ny c (hguard c hc))
  have hevs2 : (pre ++ { b with pressed := true } :: post).filterMap (downEvt nx ny) =
      [] :=
    list_filterMap_none_of _ _ (fun c hc => downEvt_of_guard nx ny c (hguard c hc))
  simp only [hmap, hmap2, hevs2]

/-- Pair of one-button states at which `c6_down_idempotent` is
instantiated: a single released button over `[0,1/2]×[0,1/2]`. -/
def sDown : VCState :=
  { buttons := [{ x := 0, y := 0, w := 1/2, h := 1/2, key := 97, id := 0,
                  pressed := false }]
    window_w := 800, window_h := 600 }

/-- Witness for C6 at the concrete state `sDown` and position (1/4, 1/4)
inside its single released button. -/
theorem c6_down_witness :
    (VirtualControls_HandleFingerEvent sDown ⟨SDL_FINGERDOWN, 1/4, 1/4⟩).2 =
      [synthesize_key 97 true] ∧
    (VirtualControls_HandleFingerEvent sDown ⟨SDL_FINGERDOWN, 1/4, 1/4⟩).1.buttons =
      [] ++ { x := 0, y := 0, w := 1/2, h := 1/2, key := 97, id := 0,
              pressed := true } :: [] ∧
    VirtualControls_HandleFingerEvent
        (VirtualControls_HandleFingerEvent sDown ⟨SDL_FINGERDOWN, 1/4, 1/4⟩).1
        ⟨SDL_FINGERDOWN, 1/4, 1/4⟩ =
      ((VirtualControls_HandleFingerEvent sDown ⟨SDL_FINGERDOWN, 1/4, 1/4⟩).1, []) :=
  c6_down_idempotent sDown (1/4) (1/4) []
    [] { x := 0, y := 0, w := 1/2, h := 1/2, key := 97, id := 0, pressed := false }
    rfl
    (by simp only [point_in_button, decide_eq_true_eq]; norm_num)
    rfl (by simp) (by simp)

/-! ## Claim C5: down/up round trip -/

/-- C5: with the button set split as `pre ++ b :: post` where `b` is the
only button whose rectangle contains the position and `b` is released, a
finger-down followed by a finger-up at that same position pushes exactly
one key-down and then exactly one key-up for `b`'s bound key, and the final
state equals the initial state (with `b` released again). -/
theorem c5_round_trip (s : VCState) (nx ny : ℚ)
    (pre post : List VC_Button) (b : VC_Button)
    (hsplit : s.buttons = pre ++ b :: post)
    (hb : point_in_button b nx ny = true)
    (hbp : b.pressed = false)
    (hpre : ∀ c ∈ pre, point_in_button c nx ny = false)
    (hpost : ∀ c ∈ post, point_in_button c nx ny = false) :
    (VirtualControls_HandleFingerEvent s ⟨SDL_FINGERDOWN, nx, ny⟩).2 =
      [synthesize_key b.key true] ∧
    (VirtualControls_HandleFingerEvent
        (VirtualControls_HandleFingerEvent s ⟨SDL_FINGERDOWN, nx, ny⟩).1
        ⟨SDL_FINGERUP, nx, ny⟩).2 =
      [synthesize_key b.key false] ∧
    (VirtualControls_HandleFingerEvent
        (VirtualControls_HandleFingerEvent s ⟨SDL_FINGERDOWN, nx, ny⟩).1
        ⟨SDL_FINGERUP, nx, ny⟩).1 = s := by
  have hmap : s.buttons.map (downStep nx ny) =
      pre ++ { b with pressed := true } :: post := by
    rw [hsplit, List.map_append, List.map_cons,
      downStep_of_released_in nx ny b hbp hb,
      list_map_id_of _ pre (fun c hc => downStep_of_out nx ny c (hpre c hc)),
      list_map_id_of _ post (fun c hc => downStep_of_out nx ny c (hpost c hc))]
  have hevs : s.buttons.filterMap (downEvt nx ny) =
      [synthesize_key b.key true] := by
    rw [hsplit, List.filterMap_append,
      list_filterMap_none_of _ pre (fun c hc => downEvt_of_out nx ny c (hpre c hc)),
      List.filterMap_cons, downEvt_of_released_in nx ny b hbp hb,
      list_filterMap_none_of _ post (fun c hc => downEvt_of_out nx ny c (hpost c hc))]
    rfl
  have h1 := handleFingerEvent_down s nx ny
  have hbin : point_in_button { b with pressed := true } nx ny = true := hb
  have hmap2 : (pre ++ { b with pressed := true } :: post).map (upStep nx ny) =
      pre ++ b :: post := by
    rw [List.map_append, List.map_cons,
      upStep_of_pressed_in nx ny { b with pressed := true } rfl hbin,
      list_map_id_of _ pre (fun c hc => upStep_of_out nx ny c (hpre c hc)),
      list_map_id_of _ post (fun c hc => upStep_of_out nx ny c (hpost c hc))]
    exact congrArg (fun c => pre ++ c :: post) (pressed_update_eq_self b hbp)
  have hevs2 : (pre ++ { b with pressed := true } :: post).filterMap (upEvt nx ny) =
      [synthesize_key b.key false] := by
    rw [List.filterMap_append,
      list_filterMap_none_of _ pre (fun c hc => upEvt_of_out nx ny c (hpre c hc)),
      List.filterMap_cons,
      upEvt_of_pressed_in nx ny { b with pressed := true } rfl hbin,
      list_filterMap_none_of _ post (fun c hc => upEvt_of_out nx ny c (hpost c hc))]
    rfl
  refine ⟨by rw [h1, hevs], ?_, ?_⟩
  · rw [h1, handleFingerEvent_up]
    simp only [hmap, hevs2]
  · rw [h1, handleFingerEvent_up]
    simp only [hmap, hmap2]
    rw [← hsplit]

/-- Witness for C5 at the concrete state `sDown` (single released button)
and position (1/4, 1/4) inside it. -/
theorem c5_round_trip_witness :
    (VirtualControls_HandleFingerEvent sDown ⟨SDL_FINGERDOWN, 1/4, 1/4⟩).2 =
      [synthesize_key 97 true] ∧
    (VirtualControls_HandleFingerEvent
        (VirtualControls_HandleFingerEvent sDown ⟨SDL_FINGERDOWN, 1/4, 1/4⟩).1
        ⟨SDL_FINGERUP, 1/4, 1/4⟩).2 =
      [synthesize_key 97 false] ∧
    (VirtualControls_HandleFingerEvent
        (VirtualControls_HandleFingerEvent sDown ⟨SDL_FINGERDOWN, 1/4, 1/4⟩).1
        ⟨SDL_FINGERUP, 1/4, 1/4⟩).1 = sDown :=
  c5_round_trip sDown (1/4) (1/4) [] []
    { x := 0, y := 0, w := 1/2, h := 1/2, key := 97, id := 0, pressed := false }
    rfl
    (by simp only [point_in_button, decide_eq_true_eq]; norm_num)
    rfl (by simp) (by simp)

/-! ## Claim C10: key events correspond one-to-one with state transitions -/

/-- The list of key events that a one-to-one correspondence with state
transitions demands: walking the old and new button lists in parallel, one
event per button whose pressed flag changed — a key-down for the button's
bound key when it flipped to pressed, a key-up when it flipped to released
— and no event for a button whose flag is unchanged. -/
def transitionEvents : List VC_Button → List VC_Button → List KeyEvent
  | b :: bs, c :: cs =>
    if b.pressed = c.pressed then transitionEvents bs cs
    else synthesize_key b.key c.pressed :: transitionEvents bs cs
  | _, _ => []

theorem transitionEvents_self : ∀ bs : List VC_Button,
    transitionEvents bs bs = []
  | [] => rfl
  | b :: rest => by
    rw [transitionEvents, if_pos rfl, transitionEvents_self rest]

theorem transitionEvents_map (step : VC_Button → VC_Button)
    (evt : VC_Button → Option KeyEvent)
    (hcompat : ∀ b, evt b =
      if b.pressed = (step b).pressed then none
      else some (synthesize_key b.key (step b).pressed)) :
    ∀ bs : List VC_Button,
      transitionEvents bs (bs.map step) = bs.filterMap evt := by
  intro bs
  induction bs with
  | nil => rfl
  | cons b rest ih =>
    rw [List.map_cons, transitionEvents, List.filterMap_cons, hcompat b]
    by_cases h : b.pressed = (step b).pressed
    · rw [if_pos h, if_pos h, ih]
    · rw [if_neg h, if_neg h, ih]

theorem down_compat (nx ny : ℚ) (b : VC_Button) :
    downEvt nx ny b =
      if b.pressed = (downStep nx ny b).pressed then none
      else some (synthesize_key b.key (downStep nx ny b).pressed) := by
  cases hp : b.pressed <;> cases hc : point_in_button b nx ny <;>
    simp [downEvt, downStep, hp, hc]

theorem up_compat (nx ny : ℚ) (b : VC_Button) :
    upEvt nx ny b =
      if b.pressed = (upStep nx ny b).pressed then none
      else some (synthesize_key b.key (upStep nx ny b).pressed) := by
  cases hp : b.pressed <;> cases hc : point_in_button b nx ny <;>
    simp [upEvt, upStep, hp, hc]

theorem motion_compat (nx ny : ℚ) (b : VC_Button) :
    motionEvt nx ny b =
      if b.pressed = (motionStep nx ny b).pressed then none
      else some (synthesize_key b.key (motionStep nx ny b).pressed) := by
  cases hp : b.pressed <;> cases hc : point_in_button b nx ny <;>
    simp [motionEvt, motionStep, hp, hc]

theorem rel_compat (b : VC_Button) :
    relEvt b =
      if b.pressed = (relStep b).pressed then none
      else some (synthesize_key b.key (relStep b).pressed) := by
  cases hp : b.pressed <;> simp [relEvt, relStep, hp]

/-- C10: for every finger event (down, up, motion, or an unknown type that
falls through the `default` case) and every mouse event (press, release, or
an unknown state), the list of pushed key events equals `transitionEvents`
of the old and new button lists: exactly one key-down per button that
flipped from released to pressed, exactly one key-up per button that
flipped from pressed to released, in index order, and no event for any
button whose pressed flag did not change. -/
theorem c10_events_match_transitions (s : VCState)
    (tf : SDL_TouchFingerEvent) (mb : SDL_MouseButtonEvent) :
    (VirtualControls_HandleFingerEvent s tf).2 =
      transitionEvents s.buttons
        (VirtualControls_HandleFingerEvent s tf).1.buttons ∧
    (VirtualControls_HandleMouseEvent s mb).2 =
      transitionEvents s.buttons
        (VirtualControls_HandleMouseEvent s mb).1.buttons := by
  constructor
  · obtain ⟨t, nx, ny⟩ := tf
    rw [VirtualControls_HandleFingerEvent]
    by_cases h1 : t = SDL_FINGERDOWN
    · simp only [h1, if_pos rfl, vcDownLoop_eq]
      exact (transitionEvents_map _ _ (down_compat nx ny) s.buttons).symm
    · rw [if_neg h1]
      by_cases h2 : t = SDL_FINGERUP
      · simp only [h2, if_pos rfl, vcUpLoop_eq]
        exact (transitionEvents_map _ _ (up_compat nx ny) s.buttons).symm
      · rw [if_neg h2]
        by_cases h3 : t = SDL_FINGERMOTION
        · simp only [h3, if_pos rfl, vcMotionLoop_eq]
          exact (transitionEvents_map _ _ (motion_compat nx ny) s.buttons).symm
        · rw [if_neg h3]
          exact (transitionEvents_self s.buttons).symm
  · rw [VirtualControls_HandleMouseEvent]
    by_cases h1 : mb.state = SDL_PRESSED
    · simp only [h1, if_pos rfl, vcDownLoop_eq]
      exact (transitionEvents_map _ _
        (down_compat ((mb.x : ℚ) / (s.window_w : ℚ))
          ((mb.y : ℚ) / (s.window_h : ℚ))) s.buttons).symm
    · rw [if_neg h1]
      by_cases h2 : mb.state = SDL_RELEASED
      · simp only [h2, if_pos rfl, vcReleaseAllLoop_eq]
        exact (transitionEvents_map _ _ rel_compat s.buttons).symm
      · rw [if_neg h2]
        exact (transitionEvents_self s.buttons).symm

end VirtualControls
